import Mathlib

/-!
Verification of the Roadmap Dashboard script (`src/app.py`).

The script is a single top-to-bottom Streamlit pipeline: read the uploaded
CSV/XLSX file, validate that thirteen required columns are present, parse the
four date columns with `pd.to_datetime(..., errors="coerce")`, derive the
boolean columns `Completed` and `OnTime`, apply five multiselect filters,
compute KPI scalars, and render the table, four charts and a timeline toggle.

The embedding below models a dataframe as a list of rows plus the list of
column names of the uploaded file.  Pandas cells that may be NaN are modelled
as `Option` values; dates are day numbers (`Nat`); the numeric columns are
exact rationals (`ℚ`); the external parsers `pd.read_csv` / `pd.read_excel`
are modelled as oracle fields on the uploaded file (the script only branches
on their success or failure).
-/

namespace RoadmapDashboard

/-- A raw cell of one of the four date columns before
`pd.to_datetime(..., errors="coerce")` is applied: either a value that parses
to a date (modelled as a day number), a value that does not parse, or a
missing (NaN) cell. -/
inductive RawDate where
  | parseable (d : Nat)
  | unparseable
  | missing
deriving DecidableEq, Repr

/-- The call `pd.to_datetime(x, errors="coerce")` on a single cell (app.py line 53):
a parseable value becomes a date, anything else becomes NaT (modelled `none`).
Unparseable values are coerced, never raised as errors. -/
def toDatetimeCoerce : RawDate → Option Nat
  | .parseable d => some d
  | .unparseable => none
  | .missing => none

/-- One row of the uploaded table, before date parsing.  Text cells are
`Option String` (`none` is a NaN cell), numeric cells are `Option ℚ`. -/
structure RawRow where
  initiative : Option String
  category : Option String
  track : Option String
  quarter : Option String
  plannedStart : RawDate
  plannedEnd : RawDate
  actualStart : RawDate
  actualEnd : RawDate
  status : Option String
  revenue : Option ℚ
  effort : Option ℚ
  breakEvenMonths : Option ℚ
  module : Option String
deriving DecidableEq, Repr

/-- The uploaded table: the header (`df.columns`) and the data rows. -/
structure RawTable where
  columns : List String
  rows : List RawRow
deriving DecidableEq, Repr

/-- app.py lines 10–13: the thirteen required columns. -/
def REQUIRED_COLUMNS : List String :=
  ["Initiative","Category","Track","Quarter","PlannedStart","PlannedEnd",
   "ActualStart","ActualEnd","Status","Revenue","Effort","BreakEvenMonths","Module"]

/-- app.py line 46: `missing = [c for c in REQUIRED_COLUMNS if c not in df.columns]`. -/
def requiredMissing (t : RawTable) : List String :=
  REQUIRED_COLUMNS.filter (fun c => !(t.columns.contains c))

/-- A row after the date-parsing loop (app.py lines 52–53): the four date
columns now hold `datetime` values or NaT (`none`). -/
structure ParsedRow where
  initiative : Option String
  category : Option String
  track : Option String
  quarter : Option String
  plannedStart : Option Nat
  plannedEnd : Option Nat
  actualStart : Option Nat
  actualEnd : Option Nat
  status : Option String
  revenue : Option ℚ
  effort : Option ℚ
  breakEvenMonths : Option ℚ
  module : Option String
deriving DecidableEq, Repr

/-- The date-parsing loop (app.py lines 52–53) applied to one row. -/
def parseDatesRow (r : RawRow) : ParsedRow :=
  { initiative := r.initiative, category := r.category, track := r.track
    quarter := r.quarter
    plannedStart := toDatetimeCoerce r.plannedStart
    plannedEnd := toDatetimeCoerce r.plannedEnd
    actualStart := toDatetimeCoerce r.actualStart
    actualEnd := toDatetimeCoerce r.actualEnd
    status := r.status, revenue := r.revenue, effort := r.effort
    breakEvenMonths := r.breakEvenMonths, module := r.module }

/-- The date-parsing loop applied to the whole table. -/
def parseDates (rows : List RawRow) : List ParsedRow :=
  rows.map parseDatesRow

/-- A row with the two derived boolean columns (app.py lines 56–57).
Both columns have pandas dtype `bool`, so neither can be NaN. -/
structure Row extends ParsedRow where
  completed : Bool
  onTime : Bool
deriving DecidableEq, Repr

/-- Python string lowercasing (`str.lower`, pandas `.str.lower()`),
character by character. -/
def strLower (s : String) : String :=
  ⟨s.data.map Char.toLower⟩

/-- Python `str.endswith(suffix)`. -/
def strEndsWith (s suffix : String) : Bool :=
  suffix.data.isSuffixOf s.data

/-- app.py line 56: `df["Status"].str.lower().eq("completed")` on one cell.
`.str.lower()` maps a NaN cell to NaN, and `.eq("completed")` maps NaN to
`False`, so a missing status yields `false`. -/
def lowerEqCompleted (status : Option String) : Bool :=
  match status with
  | some s => strLower s == "completed"
  | none => false

/-- app.py line 57, the comparison `df["ActualEnd"] <= df["PlannedEnd"]` on one
row: a pandas datetime comparison involving NaT is `False`. -/
def dateLe (a b : Option Nat) : Bool :=
  match a, b with
  | some x, some y => decide (x ≤ y)
  | _, _ => false

/-- app.py lines 56–57: derive `Completed` and `OnTime` for one row. -/
def deriveRow (pr : ParsedRow) : Row :=
  let completed := lowerEqCompleted pr.status
  let onTime := completed && dateLe pr.actualEnd pr.plannedEnd
  { toParsedRow := pr, completed := completed, onTime := onTime }

/-- app.py lines 56–57 applied to the whole table. -/
def deriveCols (rows : List ParsedRow) : List Row :=
  rows.map deriveRow

/-- The five multiselect selections (app.py lines 62–66).  An empty list is
the multiselect default: nothing selected. -/
structure Selections where
  track : List String
  category : List String
  module : List String
  quarter : List String
  status : List String
deriving DecidableEq, Repr

/-- The test `df[col].isin(selection)` on one cell: a NaN cell is never a member. -/
def optMem (v : Option String) (sel : List String) : Bool :=
  match v with
  | some s => sel.contains s
  | none => false

/-- app.py lines 68–73: the filter mask for one row.  `if track_f:` is
Python truthiness, so an empty selection contributes no conjunct. -/
def maskKeep (sel : Selections) (r : Row) : Bool :=
  (sel.track.isEmpty || optMem r.track sel.track) &&
  (sel.category.isEmpty || optMem r.category sel.category) &&
  (sel.module.isEmpty || optMem r.module sel.module) &&
  (sel.quarter.isEmpty || optMem r.quarter sel.quarter) &&
  (sel.status.isEmpty || optMem r.status sel.status)

/-- app.py line 74: `fdf = df[mask].copy()`. -/
def applyFilters (sel : Selections) (rows : List Row) : List Row :=
  rows.filter (maskKeep sel)

/-- The value `int(series.sum())` for a pandas bool column: the number of `True`s. -/
def countTrue (l : List Bool) : Nat :=
  (l.filter (fun b => b)).length

/-- The value `series.sum()` for a numeric column: NaN cells are skipped (skipna). -/
def sumOpt (l : List (Option ℚ)) : ℚ :=
  (l.filterMap id).sum

/-- The value `series.mean()` for a numeric column: NaN cells are skipped; the mean of
a column whose present cells are empty is NaN (modelled `none`). -/
def meanOpt (l : List (Option ℚ)) : Option ℚ :=
  let present := l.filterMap id
  if present.isEmpty then none else some (present.sum / present.length)

/-- Python `round(x, 1)`: round to one decimal place, ties to even. -/
def pyRound1 (q : ℚ) : ℚ :=
  let x := q * 10
  let f : ℤ := Int.floor x
  let r : ℤ :=
    if x - f < 1/2 then f
    else if x - f > 1/2 then f + 1
    else if f % 2 = 0 then f else f + 1
  (r : ℚ) / 10

/-- app.py line 85: `fdf["OnTime"].notna().any()`.  `OnTime` has dtype
`bool`, so `notna()` is `True` at every entry and `any()` holds iff the
filtered frame is nonempty. -/
def notnaAny (l : List Bool) : Bool :=
  (l.map (fun _ => true)).any (fun b => b)

/-- The KPI scalars of app.py lines 77–88.  `avgBreakeven = none` models the
float NaN produced when every `BreakEvenMonths` cell is NaN; `ontime = none`
models Python `None`. -/
structure KPIs where
  total : Nat
  completed : Nat
  plannedVsCompleted : String
  totalRev : ℚ
  totalEffort : ℚ
  avgBreakeven : Option ℚ
  ontime : Option ℚ
deriving DecidableEq, Repr

/-- app.py lines 77–88: the KPI scalars computed from the filtered table. -/
def computeKPIs (fdf : List Row) : KPIs :=
  let total := fdf.length
  let completed := countTrue (fdf.map Row.completed)
  let plannedVsCompleted :=
    if total ≠ 0 then toString completed ++ "/" ++ toString total else "0/0"
  let totalRev := if total ≠ 0 then sumOpt (fdf.map fun r => r.revenue) else 0
  let totalEffort := if total ≠ 0 then sumOpt (fdf.map fun r => r.effort) else 0
  let avgBreakeven :=
    if total ≠ 0 then meanOpt (fdf.map fun r => r.breakEvenMonths) else some 0
  let ontime :=
    if notnaAny (fdf.map Row.onTime) then
      some (pyRound1 (100 * ((countTrue (fdf.map Row.onTime) : ℚ) / total)))
    else none
  { total := total, completed := completed
    plannedVsCompleted := plannedVsCompleted
    totalRev := totalRev, totalEffort := totalEffort
    avgBreakeven := avgBreakeven, ontime := ontime }

/-- app.py line 93: `f"{ontime}%" if ontime is not None else "N/A"`. -/
def ontimeMetric (ontime : Option ℚ) : String :=
  match ontime with
  | some q => toString q ++ "%"
  | none => "N/A"

/-- Ascending order on sort-key cells for
`sort_values(["Quarter","Status","Initiative"])`: strings in lexicographic
order, NaN cells sorted last (pandas default `na_position="last"`). -/
def optStrLt (a b : Option String) : Bool :=
  match a, b with
  | some x, some y => decide (x < y)
  | some _, none => true
  | none, _ => false

/-- app.py line 100: the row order of
`sort_values(["Quarter","Status","Initiative"])`. -/
def rowLe (a b : Row) : Bool :=
  if optStrLt a.quarter b.quarter then true
  else if optStrLt b.quarter a.quarter then false
  else if optStrLt a.status b.status then true
  else if optStrLt b.status a.status then false
  else if optStrLt a.initiative b.initiative then true
  else if optStrLt b.initiative a.initiative then false
  else true

/-- Stable insertion for `sortRows`. -/
def insertRow (r : Row) : List Row → List Row
  | [] => [r]
  | x :: xs => if rowLe r x then r :: x :: xs else x :: insertRow r xs

/-- app.py line 100: `fdf.sort_values(["Quarter","Status","Initiative"])`
(a stable sort; `reset_index(drop=True)` has no observable effect here). -/
def sortRows (l : List Row) : List Row :=
  l.foldr insertRow []

/-- The widgets the script renders after a successful run, in source order:
the five KPI metrics (lines 90–95), the initiatives table (lines 98–102),
the four chart slots (lines 104–150; each slot shows a chart, or an info
message when its data is empty), and the timeline slot (lines 152–176). -/
inductive RenderAction where
  | metrics
  | table
  | revenueChart
  | ontimeTrendChart
  | completedByCategoryChart
  | effortRevenueChart
  | timelineChart
deriving DecidableEq, Repr

/-- The render order of a successful run. -/
def stdTrace : List RenderAction :=
  [.metrics, .table, .revenueChart, .ontimeTrendChart,
   .completedByCategoryChart, .effortRevenueChart, .timelineChart]

/-- app.py line 154: the timeline radio toggle. -/
inductive TimelineChoice where
  | planned
  | actual
deriving DecidableEq, Repr

/-- The uploaded file.  `pd.read_csv` and `pd.read_excel` are external
library calls; they are modelled as oracle fields giving the table each
parser would produce from the bytes of the file, or the exception message it
would raise. -/
structure UploadedFile where
  name : String
  csvParse : Except String RawTable
  xlsxParse : Except String RawTable

/-- app.py lines 36–43: pick the parser by the (lowercased) file extension;
on failure the error shown is `f"Could not read file: {e}"`. -/
def readInput (f : UploadedFile) : Except String RawTable :=
  match (if strEndsWith (strLower f.name) ".csv" then f.csvParse else f.xlsxParse) with
  | .ok t => .ok t
  | .error e => .error ("Could not read file: " ++ e)

/-- What one run of the script produces when it reaches the end. -/
structure Output where
  kpis : KPIs
  tableRows : List Row
  trace : List RenderAction
deriving Repr

/-- A run either stops at `st.error(...); st.stop()` with a message, or
renders the full dashboard. -/
inductive RunResult where
  | errorStop (msg : String)
  | rendered (out : Output)
deriving Repr

/-- The whole script (app.py lines 36–176) for one interaction: read the
file, validate the columns, parse dates, derive columns, filter, compute
KPIs, and render.  `sel` are the five multiselect values and `opt` the
timeline radio value chosen by the user. -/
def runApp (f : UploadedFile) (sel : Selections) (_opt : TimelineChoice) :
    RunResult :=
  match readInput f with
  | .error e => .errorStop e
  | .ok t =>
    if (requiredMissing t).isEmpty then
      let pdf := parseDates t.rows
      let ddf := deriveCols pdf
      let fdf := applyFilters sel ddf
      .rendered { kpis := computeKPIs fdf
                  tableRows := sortRows fdf
                  trace := stdTrace }
    else
      .errorStop ("Your file is missing required columns: "
        ++ toString (requiredMissing t))

/-- The observable effects of one run: the script reads the upload and
renders widgets.  `writeUpload` and `writeStore` are effects the script
could in principle perform but never does (no write-back path exists). -/
inductive Effect where
  | readUpload
  | render (msg : RenderAction)
  | renderError (m : String)
  | writeUpload
  | writeStore
deriving DecidableEq, Repr

/-- The effect trace of one run: the upload is read once, then either an
error message or the dashboard widgets are rendered. -/
def runEffects (f : UploadedFile) (sel : Selections) (opt : TimelineChoice) :
    List Effect :=
  Effect.readUpload ::
    (match runApp f sel opt with
     | .errorStop m => [Effect.renderError m]
     | .rendered o => o.trace.map Effect.render)

/-- An effect that only reads the upload or renders output, never writes. -/
def isReadOrRender : Effect → Bool
  | .readUpload => true
  | .render _ => true
  | .renderError _ => true
  | .writeUpload => false
  | .writeStore => false

/-- Whether a run reached the rendering stage (did not hit `st.stop()` with
an error). -/
def RunResult.isRendered : RunResult → Bool
  | .rendered _ => true
  | .errorStop _ => false

/- Helper lemmas shared by the proofs below. -/

lemma dateLe_none_left (b : Option Nat) : dateLe none b = false := by
  cases b <;> rfl

lemma dateLe_none_right (a : Option Nat) : dateLe a none = false := by
  cases a <;> rfl

lemma notnaAny_eq_not_isEmpty (l : List Bool) : notnaAny l = !l.isEmpty := by
  cases l <;> simp [notnaAny]

lemma emptyOr_optMem_iff (l : List String) (v : Option String) :
    (l.isEmpty || optMem v l) = true ↔ (l = [] ∨ ∃ s, v = some s ∧ s ∈ l) := by
  cases v <;> simp [optMem, List.isEmpty_iff]

lemma runApp_ok (f : UploadedFile) (sel : Selections) (opt : TimelineChoice)
    (t : RawTable) (hread : readInput f = .ok t)
    (hcols : (requiredMissing t).isEmpty = true) :
    runApp f sel opt =
      .rendered
        { kpis := computeKPIs (applyFilters sel (deriveCols (parseDates t.rows)))
          tableRows := sortRows (applyFilters sel (deriveCols (parseDates t.rows)))
          trace := stdTrace } := by
  unfold runApp
  rw [hread]
  simp [hcols]

/- Sample data used by the witnesses. -/

/-- The empty filter state: nothing selected in any multiselect. -/
def noSel : Selections := ⟨[], [], [], [], []⟩

/-- A well-formed raw row: completed on time. -/
def sampleRawRow : RawRow :=
  { initiative := some "Alpha", category := some "New Feature"
    track := some "DDE", quarter := some "2025-Q3"
    plannedStart := .parseable 10, plannedEnd := .parseable 20
    actualStart := .parseable 11, actualEnd := .parseable 19
    status := some "Completed", revenue := some 3, effort := some 5
    breakEvenMonths := some 12, module := some "Core" }

/-- A well-formed uploaded table with every required column. -/
def sampleTable : RawTable := ⟨REQUIRED_COLUMNS, [sampleRawRow]⟩

/-- A CSV upload that parses to `sampleTable`. -/
def sampleFile : UploadedFile :=
  ⟨"roadmap.csv", .ok sampleTable, .error "not an xlsx file"⟩

/-- A parsed row whose `ActualEnd` cell is NaT. -/
def sampleNoEndRow : ParsedRow :=
  { initiative := some "Beta", category := some "Algorithm"
    track := some "AI/Automation", quarter := some "2025-Q4"
    plannedStart := some 1, plannedEnd := some 2
    actualStart := some 1, actualEnd := none
    status := some "Completed", revenue := some 1, effort := some 1
    breakEvenMonths := none, module := some "Core" }

/-- The fully processed form of `sampleRawRow`. -/
def sampleRow : Row := deriveRow (parseDatesRow sampleRawRow)

/-- An uploaded table lacking twelve of the required columns. -/
def sampleMissingTable : RawTable := ⟨["Initiative"], []⟩

/-- A CSV upload that parses to `sampleMissingTable`. -/
def sampleMissingFile : UploadedFile :=
  ⟨"roadmap.csv", .ok sampleMissingTable, .error "not an xlsx file"⟩

/-- A CSV upload whose bytes do not parse as CSV. -/
def brokenFile : UploadedFile :=
  ⟨"data.csv", .error "bad bytes", .ok sampleTable⟩

/-- A raw row with an unparseable `PlannedStart` and a missing `ActualEnd`. -/
def sampleCoerceRow : RawRow :=
  { sampleRawRow with plannedStart := .unparseable, actualEnd := .missing }

/-- A table containing a row with unparseable and missing date cells. -/
def sampleCoerceTable : RawTable := ⟨REQUIRED_COLUMNS, [sampleCoerceRow]⟩

/-- A CSV upload that parses to `sampleCoerceTable`. -/
def sampleCoerceFile : UploadedFile :=
  ⟨"roadmap2.csv", .ok sampleCoerceTable, .error "not an xlsx file"⟩

/- The claims. -/

/-- C1: for every row of the validated table, the derived boolean field
`Completed` is true iff the `Status` field, compared case-insensitively,
equals "completed". -/
theorem completed_iff_status_completed (pr : ParsedRow) :
    (deriveRow pr).completed = true ↔
      ∃ s, pr.status = some s ∧ strLower s = "completed" := by
  cases h : pr.status with
  | none => simp [deriveRow, lowerEqCompleted, h]
  | some s => simp [deriveRow, lowerEqCompleted, h]

/-- Witness for C1: a row whose status is "Completed" gets the flag. -/
theorem completed_iff_status_completed_witness :
    (deriveRow (parseDatesRow sampleRawRow)).completed = true :=
  (completed_iff_status_completed (parseDatesRow sampleRawRow)).mpr
    ⟨"Completed", rfl, by decide⟩

/-- C2: for every row of the validated table, the derived boolean field
`OnTime` is true iff the `Completed` flag is true and the `ActualEnd` date is
present and less than or equal to the (present) `PlannedEnd` date. -/
theorem onTime_iff_completed_and_dates (pr : ParsedRow) :
    (deriveRow pr).onTime = true ↔
      ((deriveRow pr).completed = true ∧
        ∃ a p, pr.actualEnd = some a ∧ pr.plannedEnd = some p ∧ a ≤ p) := by
  cases ha : pr.actualEnd with
  | none => simp [deriveRow, dateLe, ha]
  | some a =>
    cases hp : pr.plannedEnd with
    | none => simp [deriveRow, dateLe, ha, hp]
    | some p => simp [deriveRow, dateLe, ha, hp, and_assoc]

/-- Witness for C2: the sample row is on time. -/
theorem onTime_iff_completed_and_dates_witness :
    (deriveRow (parseDatesRow sampleRawRow)).onTime = true :=
  (onTime_iff_completed_and_dates (parseDatesRow sampleRawRow)).mpr
    ⟨by decide, 19, 20, rfl, rfl, by decide⟩

/-- C3: if any required column is absent from the uploaded table, the run
stops with the missing-columns error; nothing further is computed or
rendered. -/
theorem missing_column_rejects_dataset (f : UploadedFile) (sel : Selections)
    (opt : TimelineChoice) (t : RawTable) (c : String)
    (hread : readInput f = .ok t)
    (hc : c ∈ REQUIRED_COLUMNS) (habs : c ∉ t.columns) :
    runApp f sel opt =
      .errorStop ("Your file is missing required columns: "
        ++ toString (requiredMissing t)) := by
  have hmem : c ∈ requiredMissing t := by
    refine List.mem_filter.mpr ⟨hc, ?_⟩
    simp [habs]
  have hne : (requiredMissing t).isEmpty = false := by
    cases h : requiredMissing t with
    | nil => rw [h] at hmem; cases hmem
    | cons a l => rfl
  unfold runApp
  rw [hread]
  simp [hne]

/-- Witness for C3: a table with only an `Initiative` column is rejected. -/
theorem missing_column_rejects_dataset_witness :
    runApp sampleMissingFile noSel .planned =
      .errorStop ("Your file is missing required columns: "
        ++ toString (requiredMissing sampleMissingTable)) :=
  missing_column_rejects_dataset sampleMissingFile noSel .planned
    sampleMissingTable "Category" rfl (by decide) (by decide)

/-- C4: a row survives the filters iff, for each of the five fields whose
selection is non-empty, the value of that field is a member of the
selection; with all five selections empty every row is kept. -/
theorem filter_membership_characterisation :
    (∀ (sel : Selections) (rows : List Row) (r : Row),
      r ∈ applyFilters sel rows ↔
        r ∈ rows ∧
        (sel.track = [] ∨ ∃ v, r.track = some v ∧ v ∈ sel.track) ∧
        (sel.category = [] ∨ ∃ v, r.category = some v ∧ v ∈ sel.category) ∧
        (sel.module = [] ∨ ∃ v, r.module = some v ∧ v ∈ sel.module) ∧
        (sel.quarter = [] ∨ ∃ v, r.quarter = some v ∧ v ∈ sel.quarter) ∧
        (sel.status = [] ∨ ∃ v, r.status = some v ∧ v ∈ sel.status)) ∧
    (∀ rows : List Row, applyFilters noSel rows = rows) := by
  constructor
  · intro sel rows r
    simp only [applyFilters, List.mem_filter, maskKeep, Bool.and_eq_true,
      emptyOr_optMem_iff, and_assoc]
  · intro rows
    refine List.filter_eq_self.mpr ?_
    intro r _
    rfl

/-- Witness for C4: a row whose track is selected survives the filter. -/
theorem filter_membership_characterisation_witness :
    sampleRow ∈ applyFilters ⟨["DDE"], [], [], [], []⟩ [sampleRow] :=
  (filter_membership_characterisation.1 ⟨["DDE"], [], [], [], []⟩
      [sampleRow] sampleRow).mpr
    ⟨List.mem_singleton.mpr rfl,
     Or.inr ⟨"DDE", rfl, by decide⟩,
     Or.inl rfl, Or.inl rfl, Or.inl rfl, Or.inl rfl⟩

/-- C5: for every run whose upload parses and passes column validation, the
script is the single pipeline read → validate → parse dates → derive columns
→ filter → KPIs → render (metrics, table, four chart slots, timeline slot, in
that order): the derived columns are computed before filtering and the KPIs
are computed from the filtered table. -/
theorem pipeline_structure (f : UploadedFile) (sel : Selections)
    (opt : TimelineChoice) (t : RawTable)
    (hread : readInput f = .ok t)
    (hcols : (requiredMissing t).isEmpty = true) :
    runApp f sel opt =
      .rendered
        { kpis := computeKPIs (applyFilters sel (deriveCols (parseDates t.rows)))
          tableRows := sortRows (applyFilters sel (deriveCols (parseDates t.rows)))
          trace := stdTrace } :=
  runApp_ok f sel opt t hread hcols

/-- Witness for C5: the sample upload runs the full pipeline. -/
theorem pipeline_structure_witness :
    runApp sampleFile noSel .planned =
      .rendered
        { kpis := computeKPIs
            (applyFilters noSel (deriveCols (parseDates sampleTable.rows)))
          tableRows := sortRows
            (applyFilters noSel (deriveCols (parseDates sampleTable.rows)))
          trace := stdTrace } :=
  pipeline_structure sampleFile noSel .planned sampleTable rfl (by decide)

/-- C6: if the chosen parser (CSV when the lowercased name ends in ".csv",
XLSX otherwise) fails, the run stops with the read error and nothing else
happens. -/
theorem read_failure_stops_run (f : UploadedFile) (sel : Selections)
    (opt : TimelineChoice) (e : String)
    (h : (if strEndsWith (strLower f.name) ".csv" then f.csvParse else f.xlsxParse)
          = .error e) :
    runApp f sel opt = .errorStop ("Could not read file: " ++ e) := by
  unfold runApp readInput
  rw [h]

/-- Witness for C6: a CSV file with unreadable bytes stops the run. -/
theorem read_failure_stops_run_witness :
    runApp brokenFile noSel .planned =
      .errorStop ("Could not read file: " ++ "bad bytes") :=
  read_failure_stops_run brokenFile noSel .planned "bad bytes" rfl

/-- C7: every effect of a run is reading the upload or rendering output;
there is no write to the uploaded file or to any persistent store. -/
theorem run_never_writes (f : UploadedFile) (sel : Selections)
    (opt : TimelineChoice) :
    (runEffects f sel opt).all isReadOrRender = true := by
  unfold runEffects
  cases h : runApp f sel opt with
  | errorStop m => rfl
  | rendered o =>
    refine List.all_eq_true.mpr ?_
    intro x hx
    rcases List.mem_cons.mp hx with h | h
    · subst h; rfl
    · obtain ⟨a, _, rfl⟩ := List.mem_map.mp h
      rfl

/-- C8: `OnTime` implies `Completed`; `OnTime` is false (it is a `Bool`,
never missing) whenever `ActualEnd` or `PlannedEnd` is NaT; and on a
nonempty filtered table the on-time percentage divides by the full row
count, so such rows count against it. -/
theorem onTime_invariants :
    (∀ pr : ParsedRow,
      (deriveRow pr).onTime = true → (deriveRow pr).completed = true) ∧
    (∀ pr : ParsedRow, pr.actualEnd = none ∨ pr.plannedEnd = none →
      (deriveRow pr).onTime = false) ∧
    (∀ fdf : List Row, fdf ≠ [] →
      (computeKPIs fdf).ontime =
        some (pyRound1
          (100 * ((countTrue (fdf.map Row.onTime) : ℚ) / fdf.length)))) := by
  refine ⟨?_, ?_, ?_⟩
  · intro pr h
    simp only [deriveRow, Bool.and_eq_true] at h
    simp only [deriveRow]
    exact h.1
  · intro pr h
    simp only [deriveRow]
    rcases h with h | h
    · rw [h, dateLe_none_left, Bool.and_false]
    · rw [h, dateLe_none_right, Bool.and_false]
  · intro fdf hne
    have h1 : notnaAny (fdf.map Row.onTime) = true := by
      cases fdf with
      | nil => exact absurd rfl hne
      | cons a l => rfl
    simp only [computeKPIs, h1, if_true]

/-- Witness for C8: a completed row with no `ActualEnd` is not on time, and
a single-row table computes its on-time percentage over one row. -/
theorem onTime_invariants_witness :
    (deriveRow sampleNoEndRow).onTime = false ∧
    (computeKPIs [sampleRow]).ontime =
      some (pyRound1
        (100 * ((countTrue ([sampleRow].map Row.onTime) : ℚ)
          / ([sampleRow] : List Row).length))) :=
  ⟨onTime_invariants.2.1 sampleNoEndRow (Or.inl rfl),
   onTime_invariants.2.2 [sampleRow] (by simp)⟩

/-- C9: unparseable or missing date cells are coerced to NaT rather than
rejected: coercion never errors, and any upload that parses and has all
required columns completes the whole pipeline regardless of its date
cells. -/
theorem unparseable_dates_coerced :
    (toDatetimeCoerce .unparseable = none ∧ toDatetimeCoerce .missing = none) ∧
    (∀ (f : UploadedFile) (t : RawTable) (sel : Selections)
        (opt : TimelineChoice),
      readInput f = .ok t → (requiredMissing t).isEmpty = true →
      ∃ out, runApp f sel opt = .rendered out) :=
  ⟨⟨rfl, rfl⟩,
   fun f t sel opt hread hcols => ⟨_, runApp_ok f sel opt t hread hcols⟩⟩

/-- Witness for C9: a table with an unparseable `PlannedStart` and a missing
`ActualEnd` still renders the dashboard. -/
theorem unparseable_dates_coerced_witness :
    (runApp sampleCoerceFile noSel .planned).isRendered = true := by
  obtain ⟨o, ho⟩ := unparseable_dates_coerced.2 sampleCoerceFile
    sampleCoerceTable noSel .planned rfl (by decide)
  rw [ho]
  rfl

/-- C10: on an empty filtered table the KPI scalars take their fixed
defaults — "0/0", zero revenue, zero effort, zero average break-even — and
the on-time percentage is `None`, displayed as "N/A". -/
theorem empty_filter_kpi_defaults :
    computeKPIs ([] : List Row) =
      { total := 0, completed := 0, plannedVsCompleted := "0/0"
        totalRev := 0, totalEffort := 0, avgBreakeven := some 0
        ontime := none } ∧
    ontimeMetric (computeKPIs ([] : List Row)).ontime = "N/A" :=
  ⟨rfl, rfl⟩

end RoadmapDashboard
